import Mathlib

/-!
Verification of the BigGAN building-block repository (src/utils.py and
src/residual_blocks.py) against its natural-language specification.

Tensors are embedded over the rationals; machine floats are modelled by ℚ
since every claim under scrutiny is exact arithmetic (sums of products,
halving, scaling).  A rank-4 weight tensor of shape (kh, kw, cin, cout)
is a function `Fin kh → Fin kw → Fin cin → Fin cout → ℚ`, matching the
TensorFlow layout (height, width, in-channels, out-channels).
-/

/-- tf.transpose for a rank-2 tensor. -/
def transposeQ {m n : ℕ} (A : Fin m → Fin n → ℚ) : Fin n → Fin m → ℚ :=
  fun i j => A j i

/-- tf.matmul for rank-2 tensors. -/
def matmulQ {m n p : ℕ} (A : Fin m → Fin n → ℚ) (B : Fin n → Fin p → ℚ) :
    Fin m → Fin p → ℚ :=
  fun i j => ∑ k, A i k * B k j

/-- tf.eye c: the c-by-c identity matrix. -/
def eyeQ (c : ℕ) : Fin c → Fin c → ℚ :=
  fun i j => if i = j then 1 else 0

/-- tf.nn.l2_loss: half of the sum of the squares of all entries. -/
def l2_loss {m n : ℕ} (A : Fin m → Fin n → ℚ) : ℚ :=
  (∑ i, ∑ j, A i j ^ 2) / 2

/-- tf.reshape(w, [-1, c]) applied to a rank-4 tensor of shape
(kh, kw, cin, cout): row-major flattening of the first three axes.
The row index r of the flattened matrix decomposes as a triple
(a, b, k) through `finProdFinEquiv`; the row order of the flattening is
immaterial to every property below because rows are only ever summed over. -/
def reshape4 {kh kw cin cout : ℕ} (w : Fin kh → Fin kw → Fin cin → Fin cout → ℚ) :
    Fin (kh * kw * cin) → Fin cout → ℚ :=
  fun r j =>
    let p1 := finProdFinEquiv.symm r
    let p2 := finProdFinEquiv.symm p1.1
    w p2.1 p2.2 p1.2 j

/-- src/utils.py, `orgtho_init` (the closure returned by
`orthogonal_initializer(scale)`), lines 16-33: reshape the 4-D weight to
(kh*kw*cin, cout), form wᵀ·w − I, and return `scale * tf.nn.l2_loss` of it. -/
def orgtho_init (scale : ℚ) {kh kw cin cout : ℕ}
    (w : Fin kh → Fin kw → Fin cin → Fin cout → ℚ) : ℚ :=
  scale * l2_loss (fun i j =>
    matmulQ (transposeQ (reshape4 w)) (reshape4 w) i j - eyeQ cout i j)

/-- src/utils.py, `orthogonal_initializer`, lines 11-35: returns `orgtho_init`
specialised to the given scale. -/
def orthogonal_initializer (scale : ℚ) {kh kw cin cout : ℕ}
    (w : Fin kh → Fin kw → Fin cin → Fin cout → ℚ) : ℚ :=
  orgtho_init scale w

/-- src/utils.py, `ortho_init_fc` (the closure returned by
`othrogonal_initializer_fc(scale)`), lines 42-58: same computation for a
rank-2 weight, with no reshape. -/
def ortho_init_fc (scale : ℚ) {cin cout : ℕ} (w : Fin cin → Fin cout → ℚ) : ℚ :=
  scale * l2_loss (fun i j => matmulQ (transposeQ w) w i j - eyeQ cout i j)

/-- src/utils.py, `othrogonal_initializer_fc`, lines 37-60. -/
def othrogonal_initializer_fc (scale : ℚ) {cin cout : ℕ}
    (w : Fin cin → Fin cout → ℚ) : ℚ :=
  ortho_init_fc scale w

/-- The Gram matrix of the reshaped weight written as a sum over the original
four axes: entry (i, j) of W'ᵀ·W' is the sum over all (a, b, k) of
w[a,b,k,i] * w[a,b,k,j]. -/
lemma gram_reshape4 {kh kw cin cout : ℕ}
    (w : Fin kh → Fin kw → Fin cin → Fin cout → ℚ) (i j : Fin cout) :
    matmulQ (transposeQ (reshape4 w)) (reshape4 w) i j
      = ∑ a, ∑ b, ∑ k, w a b k i * w a b k j := by
  calc matmulQ (transposeQ (reshape4 w)) (reshape4 w) i j
      = ∑ r : Fin (kh * kw * cin), reshape4 w r i * reshape4 w r j := rfl
    _ = ∑ t : (Fin kh × Fin kw) × Fin cin,
          w t.1.1 t.1.2 t.2 i * w t.1.1 t.1.2 t.2 j :=
        Fintype.sum_equiv
          (finProdFinEquiv.symm.trans
            (Equiv.prodCongr finProdFinEquiv.symm (Equiv.refl (Fin cin))))
          _ _ (fun r => rfl)
    _ = ∑ a, ∑ b, ∑ k, w a b k i * w a b k j := by
        rw [Fintype.sum_prod_type, Fintype.sum_prod_type]

/-- Claim C1: the function returned by `orthogonal_initializer(scale)`, applied
to a 4-D weight tensor W of shape (kh, kw, cin, cout), returns
scale * (1/2) * the sum over all entries of the squares of R, where
R = W'ᵀ·W' − I_cout and W' is W reshaped to a (kh*kw*cin, cout) matrix. -/
theorem claim_C1 (scale : ℚ) {kh kw cin cout : ℕ}
    (w : Fin kh → Fin kw → Fin cin → Fin cout → ℚ) :
    orthogonal_initializer scale w
      = scale * (1 / 2) * ∑ i, ∑ j,
          ((∑ a, ∑ b, ∑ k, w a b k i * w a b k j)
            - (if i = j then (1 : ℚ) else 0)) ^ 2 := by
  unfold orthogonal_initializer orgtho_init l2_loss eyeQ
  simp only [gram_reshape4]
  ring

/-- The convolutional regularizer on an all-zero weight tensor:
the Gram matrix is zero, so R = −I and the loss is scale * cout / 2. -/
lemma orgtho_init_zero (scale : ℚ) (kh kw cin cout : ℕ) :
    orgtho_init scale
      (fun (_ : Fin kh) (_ : Fin kw) (_ : Fin cin) (_ : Fin cout) => (0 : ℚ))
      = scale * ((cout : ℚ) / 2) := by
  unfold orgtho_init l2_loss
  have h1 : ∀ i j : Fin cout,
      matmulQ (transposeQ (reshape4
        (fun (_ : Fin kh) (_ : Fin kw) (_ : Fin cin) (_ : Fin cout) => (0 : ℚ))))
        (reshape4
        (fun (_ : Fin kh) (_ : Fin kw) (_ : Fin cin) (_ : Fin cout) => (0 : ℚ)))
        i j = 0 := by
    intro i j
    simp [matmulQ, transposeQ, reshape4]
  have h2 : ∀ i j : Fin cout, (0 - eyeQ cout i j) ^ 2 = eyeQ cout i j := by
    intro i j
    unfold eyeQ
    split <;> norm_num
  simp only [h1, h2]
  have h3 : ∀ i : Fin cout, (∑ j, eyeQ cout i j) = 1 := by
    intro i
    simp [eyeQ]
  simp only [h3]
  simp [Finset.sum_const, Finset.card_univ, mul_comm]

/-- Claim C8: any weight whose (reshaped) columns are orthonormal — i.e. whose
Gram matrix is the identity — gets zero loss from both the convolutional and
the dense regularizer; and the convolutional regularizer on a 3×3×8×16 all-zero
weight returns scale * 16 / 2 = 8 * scale. -/
theorem claim_C8 :
    (∀ (kh kw cin cout : ℕ) (scale : ℚ)
        (w : Fin kh → Fin kw → Fin cin → Fin cout → ℚ),
      (∀ i j, matmulQ (transposeQ (reshape4 w)) (reshape4 w) i j = eyeQ cout i j) →
      orgtho_init scale w = 0)
    ∧ (∀ (cin cout : ℕ) (scale : ℚ) (w : Fin cin → Fin cout → ℚ),
      (∀ i j, matmulQ (transposeQ w) w i j = eyeQ cout i j) →
      ortho_init_fc scale w = 0)
    ∧ (∀ scale : ℚ,
      orgtho_init scale
        (fun (_ : Fin 3) (_ : Fin 3) (_ : Fin 8) (_ : Fin 16) => (0 : ℚ))
        = 8 * scale) := by
  refine ⟨?_, ?_, ?_⟩
  · intro kh kw cin cout scale w h
    unfold orgtho_init l2_loss
    simp [h]
  · intro cin cout scale w h
    unfold ortho_init_fc l2_loss
    simp [h]
  · intro scale
    rw [orgtho_init_zero]
    norm_num
    ring

/-- Witness for Claim C8: a concrete 1×1×1×1 weight with entry 1 is orthonormal
after the reshape and gets zero convolutional loss, and the 1×1 matrix with
entry 1 gets zero dense loss. -/
theorem claim_C8_witness :
    orgtho_init 5 (fun (_ : Fin 1) (_ : Fin 1) (_ : Fin 1) (_ : Fin 1) => (1 : ℚ)) = 0
    ∧ ortho_init_fc 5 (fun (_ : Fin 1) (_ : Fin 1) => (1 : ℚ)) = 0 :=
  ⟨claim_C8.1 1 1 1 1 5 _ (by
      intro i j
      have hij : i = j := Subsingleton.elim i j
      subst hij
      simp [matmulQ, transposeQ, reshape4, eyeQ]),
   claim_C8.2.1 1 1 5 _ (by
      intro i j
      have hij : i = j := Subsingleton.elim i j
      subst hij
      simp [matmulQ, transposeQ, eyeQ])⟩

/-- Claim C9: the loss returned by either regularizer is linear in the scale
argument: building the regularizer with scale s*k gives k times the loss of the
regularizer built with scale s, on every weight tensor. -/
theorem claim_C9 :
    (∀ (scale k : ℚ) (kh kw cin cout : ℕ)
        (w : Fin kh → Fin kw → Fin cin → Fin cout → ℚ),
      orgtho_init (scale * k) w = k * orgtho_init scale w)
    ∧ (∀ (scale k : ℚ) (cin cout : ℕ) (w : Fin cin → Fin cout → ℚ),
      ortho_init_fc (scale * k) w = k * ortho_init_fc scale w) := by
  constructor
  · intro scale k kh kw cin cout w
    unfold orgtho_init
    ring
  · intro scale k cin cout w
    unfold ortho_init_fc
    ring

/-!
Dynamic-rank embedding of src/utils.py.  A `TensorD` carries its shape as a
list of dimensions and its entries flattened in row-major order, matching a
TensorFlow tensor whose static shape is known.  The Python lines
`_,_,_, c = w.shape.as_list()` (utils.py line 19) and
`_,c = w.shape.as_list()` (utils.py line 45) destructure the shape list and
raise a ValueError whenever it does not have exactly 4 (resp. 2) elements;
this is modelled by the catch-all error branch of the match below.
-/

/-- A tensor of dynamic rank: its shape and its row-major flattened entries. -/
structure TensorD where
  shape : List ℕ
  data : List ℚ

/-- src/utils.py, `orgtho_init`, dynamic-rank version: destructure the shape
into exactly four components (error otherwise), view the data as a
(kh*kw*cin, cout) matrix in row-major order, and return
scale * l2_loss(wᵀ·w − I). -/
def orgtho_init_dyn (scale : ℚ) (w : TensorD) : Except String ℚ :=
  match w.shape with
  | [kh, kw, cin, cout] =>
      Except.ok (scale * ((∑ i : Fin cout, ∑ j : Fin cout,
        ((∑ r : Fin (kh * kw * cin),
            w.data.getD (r.1 * cout + i.1) 0 * w.data.getD (r.1 * cout + j.1) 0)
          - (if i = j then (1 : ℚ) else 0)) ^ 2) / 2))
  | _ => Except.error ("ValueError: shape does not unpack into four values")

/-- src/utils.py, `ortho_init_fc`, dynamic-rank version: destructure the shape
into exactly two components (error otherwise). -/
def ortho_init_fc_dyn (scale : ℚ) (w : TensorD) : Except String ℚ :=
  match w.shape with
  | [cin, cout] =>
      Except.ok (scale * ((∑ i : Fin cout, ∑ j : Fin cout,
        ((∑ r : Fin cin,
            w.data.getD (r.1 * cout + i.1) 0 * w.data.getD (r.1 * cout + j.1) 0)
          - (if i = j then (1 : ℚ) else 0)) ^ 2) / 2))
  | _ => Except.error ("ValueError: shape does not unpack into two values")

/-- Claim C10: the convolutional regularizer fails with an error (it does not
return a loss) on every weight tensor whose rank is not exactly 4, and the
dense regularizer fails on every weight tensor whose rank is not exactly 2. -/
theorem claim_C10 :
    (∀ (scale : ℚ) (w : TensorD), w.shape.length ≠ 4 →
      ∃ msg, orgtho_init_dyn scale w = Except.error msg)
    ∧ (∀ (scale : ℚ) (w : TensorD), w.shape.length ≠ 2 →
      ∃ msg, ortho_init_fc_dyn scale w = Except.error msg) := by
  constructor
  · intro scale w hlen
    obtain ⟨s, d⟩ := w
    rcases s with _ | ⟨a, _ | ⟨b, _ | ⟨c, _ | ⟨e, _ | ⟨f, rest⟩⟩⟩⟩⟩
    · exact ⟨_, rfl⟩
    · exact ⟨_, rfl⟩
    · exact ⟨_, rfl⟩
    · exact ⟨_, rfl⟩
    · exact absurd rfl hlen
    · exact ⟨_, rfl⟩
  · intro scale w hlen
    obtain ⟨s, d⟩ := w
    rcases s with _ | ⟨a, _ | ⟨b, _ | ⟨c, rest⟩⟩⟩
    · exact ⟨_, rfl⟩
    · exact ⟨_, rfl⟩
    · exact absurd rfl hlen
    · exact ⟨_, rfl⟩

/-- Witness for Claim C10: a rank-2 tensor makes the convolutional regularizer
error out, and a rank-3 tensor makes the dense regularizer error out. -/
theorem claim_C10_witness :
    (∃ msg, orgtho_init_dyn 1 (TensorD.mk [2, 3] []) = Except.error msg)
    ∧ (∃ msg, ortho_init_fc_dyn 1 (TensorD.mk [2, 3, 4] []) = Except.error msg) :=
  ⟨claim_C10.1 1 (TensorD.mk [2, 3] []) (by decide),
   claim_C10.2 1 (TensorD.mk [2, 3, 4] []) (by decide)⟩

/-!
Shape-level embedding of src/residual_blocks.py.  Each Keras layer that can
change a tensor's shape (Convolution2D, Convolution2DTranspose) is embedded
as its configuration record plus a shape-inference function taken from the
Keras conv_utils formulas; BatchNormalization and ReLU are shape-preserving
and parameterless at this level, so they appear only in the call functions
as identity steps (annotated in comments).  tf.add requires its two tensor
arguments to have identical shapes (broadcasting is not modelled; no
addition in this code mixes broadcastable-but-unequal shapes).
-/

/-- The padding modes accepted by the blocks. -/
inductive Padding
  | same
  | valid

deriving instance DecidableEq for Padding

/-- What is attached to a Keras layer's kernel_initializer / kernel_regularizer
slot: the framework default, or the closure returned by
`orthogonal_initializer(scale)`. -/
inductive InitSpec
  | glorot_uniform
  | ortho (scale : ℚ)

deriving instance DecidableEq for InitSpec

/-- Configuration of a Convolution2D or Convolution2DTranspose layer as built
by the block constructors. -/
structure ConvCfg where
  filters : ℕ
  kernel_size : ℕ × ℕ
  strides : ℕ × ℕ
  padding : Padding
  kernel_initializer : InitSpec
  kernel_regularizer : Option InitSpec

deriving instance DecidableEq for ConvCfg

/-- The shape of a rank-4 feature map (batch, height, width, channels). -/
structure Shape4 where
  b : ℕ
  h : ℕ
  w : ℕ
  c : ℕ

deriving instance DecidableEq for Shape4

/-- Errors surfaced by the tensor engine: a Python TypeError, a conv whose
valid-padding window does not fit the input, or a shape mismatch in tf.add. -/
inductive PyError
  | typeError (msg : String)
  | invalidDim
  | shapeMismatch (x y : Shape4)

deriving instance DecidableEq for PyError

/-- One positional argument of a call to tf.add: a tensor, or a Python list of
tensors (which is what ResidualDeconvBlock.call line 196 passes). -/
inductive TFArg
  | tensor (s : Shape4)
  | listArg (xs : List Shape4)

/-- Output length of one spatial axis of a Convolution2D
(Keras conv_utils.conv_output_length): ceil(h/s) for same padding,
floor((h−k)/s)+1 for valid padding (requiring the kernel to fit). -/
def convOutDim (pad : Padding) (k s h : ℕ) : Except PyError ℕ :=
  match pad with
  | .same => Except.ok ((h + s - 1) / s)
  | .valid => if k ≤ h then Except.ok ((h - k) / s + 1) else Except.error PyError.invalidDim

/-- Output length of one spatial axis of a Convolution2DTranspose
(Keras conv_utils.deconv_output_length with no output padding):
h*s for same padding, h*s + max(k−s, 0) for valid padding. -/
def deconvOutDim (pad : Padding) (k s h : ℕ) : ℕ :=
  match pad with
  | .same => h * s
  | .valid => h * s + (k - s)

/-- Shape inference for a Convolution2D layer on a rank-4 input. -/
def ConvCfg.outShape (cfg : ConvCfg) (x : Shape4) : Except PyError Shape4 :=
  match convOutDim cfg.padding cfg.kernel_size.1 cfg.strides.1 x.h,
        convOutDim cfg.padding cfg.kernel_size.2 cfg.strides.2 x.w with
  | Except.ok oh, Except.ok ow => Except.ok (Shape4.mk x.b oh ow cfg.filters)
  | Except.error e, _ => Except.error e
  | Except.ok _, Except.error e => Except.error e

/-- Shape inference for a Convolution2DTranspose layer on a rank-4 input
(total: transposed convolution never shrinks below zero). -/
def ConvCfg.outShapeT (cfg : ConvCfg) (x : Shape4) : Shape4 :=
  Shape4.mk x.b
    (deconvOutDim cfg.padding cfg.kernel_size.1 cfg.strides.1 x.h)
    (deconvOutDim cfg.padding cfg.kernel_size.2 cfg.strides.2 x.w)
    cfg.filters

/-- tf.add applied to a list of positional arguments.  tf.add(x, y) needs two
tensor arguments of identical shape; ResidualDeconvBlock.call line 196 instead
passes the single argument [x, residual], which raises a TypeError. -/
def tf_add_shapes (args : List TFArg) : Except PyError Shape4 :=
  match args with
  | [TFArg.tensor x, TFArg.tensor y] =>
      if x = y then Except.ok x else Except.error (PyError.shapeMismatch x y)
  | _ => Except.error (PyError.typeError ("tf.add missing required positional argument y"))

/-- src/residual_blocks.py, BasicResBlock: the three convolution layers built
in __init__ (lines 30-55).  bn1, bn2, res_bn, act1, act2 are parameterless
shape-preserving layers. -/
structure BasicResBlock where
  conv1 : ConvCfg
  conv2 : ConvCfg
  res_conv : ConvCfg

/-- BasicResBlock.__init__ (lines 17-58): conv1 uses the given kernel and
strides; conv2 the given kernel with strides (1,1); res_conv a 1×1 kernel with
the given strides.  Every conv gets orthogonal_initializer(1e-4) as its
kernel_initializer and no kernel_regularizer. -/
def BasicResBlock.init (filters : ℕ) (kernel_size : ℕ × ℕ) (padding : Padding)
    (strides : ℕ × ℕ) : BasicResBlock :=
  BasicResBlock.mk
    (ConvCfg.mk filters kernel_size strides padding (InitSpec.ortho (1 / 10000)) none)
    (ConvCfg.mk filters kernel_size (1, 1) padding (InitSpec.ortho (1 / 10000)) none)
    (ConvCfg.mk filters (1, 1) strides padding (InitSpec.ortho (1 / 10000)) none)

/-- Main path of BasicResBlock.call (lines 62-67):
conv1 → bn1 → act1 → conv2 → bn2 (bn/act preserve shape). -/
def BasicResBlock.mainShape (blk : BasicResBlock) (inputs : Shape4) :
    Except PyError Shape4 :=
  match blk.conv1.outShape inputs with
  | Except.error e => Except.error e
  | Except.ok x => blk.conv2.outShape x

/-- Shortcut path of BasicResBlock.call (lines 69-70): res_conv → res_bn
applied to the original inputs. -/
def BasicResBlock.residualShape (blk : BasicResBlock) (inputs : Shape4) :
    Except PyError Shape4 :=
  blk.res_conv.outShape inputs

/-- BasicResBlock.call (lines 60-74): output = act2(tf.add(x, residual)). -/
def BasicResBlock.callShape (blk : BasicResBlock) (inputs : Shape4) :
    Except PyError Shape4 :=
  match blk.mainShape inputs with
  | Except.error e => Except.error e
  | Except.ok x =>
    match blk.residualShape inputs with
    | Except.error e => Except.error e
    | Except.ok residual => tf_add_shapes [TFArg.tensor x, TFArg.tensor residual]

/-- src/residual_blocks.py, ResBottleNeckBlock: the four convolution layers
built in __init__ (lines 81-120). -/
structure ResBottleNeckBlock where
  conv1 : ConvCfg
  conv2 : ConvCfg
  conv3 : ConvCfg
  res_conv : ConvCfg

/-- ResBottleNeckBlock.__init__: conv1 is 1×1 stride-1; conv2 uses the given
kernel and strides; conv3 is 1×1 stride-1 with filters*4 channels; res_conv is
1×1 with the given strides and filters*4 channels.  Every conv gets
orthogonal_initializer(1e-4) as its kernel_initializer. -/
def ResBottleNeckBlock.init (filters : ℕ) (kernel_size : ℕ × ℕ) (padding : Padding)
    (strides : ℕ × ℕ) : ResBottleNeckBlock :=
  ResBottleNeckBlock.mk
    (ConvCfg.mk filters (1, 1) (1, 1) padding (InitSpec.ortho (1 / 10000)) none)
    (ConvCfg.mk filters kernel_size strides padding (InitSpec.ortho (1 / 10000)) none)
    (ConvCfg.mk (filters * 4) (1, 1) (1, 1) padding (InitSpec.ortho (1 / 10000)) none)
    (ConvCfg.mk (filters * 4) (1, 1) strides padding (InitSpec.ortho (1 / 10000)) none)

/-- Main path of ResBottleNeckBlock.call (lines 126-138):
conv1 → bn1 → act1 → conv2 → bn2 → act2 → conv3 → bn3 → act3. -/
def ResBottleNeckBlock.mainShape (blk : ResBottleNeckBlock) (inputs : Shape4) :
    Except PyError Shape4 :=
  match blk.conv1.outShape inputs with
  | Except.error e => Except.error e
  | Except.ok x1 =>
    match blk.conv2.outShape x1 with
    | Except.error e => Except.error e
    | Except.ok x2 => blk.conv3.outShape x2

/-- Shortcut path of ResBottleNeckBlock.call (lines 141-142). -/
def ResBottleNeckBlock.residualShape (blk : ResBottleNeckBlock) (inputs : Shape4) :
    Except PyError Shape4 :=
  blk.res_conv.outShape inputs

/-- ResBottleNeckBlock.call (lines 122-144): output = act3(tf.add(x, residual))
(the final activation reuses the act3 instance). -/
def ResBottleNeckBlock.callShape (blk : ResBottleNeckBlock) (inputs : Shape4) :
    Except PyError Shape4 :=
  match blk.mainShape inputs with
  | Except.error e => Except.error e
  | Except.ok x =>
    match blk.residualShape inputs with
    | Except.error e => Except.error e
    | Except.ok residual => tf_add_shapes [TFArg.tensor x, TFArg.tensor residual]

/-- src/residual_blocks.py, ResidualDeconvBlock: the three transposed
convolution layers built in __init__ (lines 148-180).  bn1, bn2, bn3 are
BatchNormalization layers; act1, act2 are ReLU; act3 is (by the source's own
text, a slip) another BatchNormalization instance. -/
structure ResidualDeconvBlock where
  deconv1 : ConvCfg
  deconv2 : ConvCfg
  deconv3 : ConvCfg

/-- ResidualDeconvBlock.__init__: deconv1 and deconv3 use the given kernel and
strides; deconv2 uses strides 1.  Every deconv gets
orthogonal_initializer(1e-4) as its kernel_initializer. -/
def ResidualDeconvBlock.init (filters : ℕ) (kernel_size : ℕ × ℕ) (padding : Padding)
    (strides : ℕ × ℕ) : ResidualDeconvBlock :=
  ResidualDeconvBlock.mk
    (ConvCfg.mk filters kernel_size strides padding (InitSpec.ortho (1 / 10000)) none)
    (ConvCfg.mk filters kernel_size (1, 1) padding (InitSpec.ortho (1 / 10000)) none)
    (ConvCfg.mk filters kernel_size strides padding (InitSpec.ortho (1 / 10000)) none)

/-- Stage-2 output x of ResidualDeconvBlock.call (lines 184-190):
bn1 → act1 → deconv1 → bn2 → act2 → deconv2 (bn/act preserve shape). -/
def ResidualDeconvBlock.xShape (blk : ResidualDeconvBlock) (inputs : Shape4) : Shape4 :=
  blk.deconv2.outShapeT (blk.deconv1.outShapeT inputs)

/-- Stage-3 residual of ResidualDeconvBlock.call (lines 192-194):
bn3 → act3 → deconv3, applied to the stage-2 output x, not to the block's
original inputs. -/
def ResidualDeconvBlock.residualShape (blk : ResidualDeconvBlock) (inputs : Shape4) :
    Shape4 :=
  blk.deconv3.outShapeT (blk.xShape inputs)

/-- ResidualDeconvBlock.call (lines 182-196): return tf.add([x, residual]) —
note the single list argument. -/
def ResidualDeconvBlock.callShape (blk : ResidualDeconvBlock) (inputs : Shape4) :
    Except PyError Shape4 :=
  tf_add_shapes [TFArg.listArg [blk.xShape inputs, blk.residualShape inputs]]

/-!
Trace-level embedding of the three call methods: the sequence of layer
applications each call performs, recording for every BatchNormalization
application the training argument passed to it (none when the layer is
invoked without a training argument, as happens for ResidualDeconvBlock's
act3, which __init__ line 179 builds as a BatchNormalization instance).
-/

/-- One layer application inside a call, with the training argument passed to
batch-normalization applications. -/
inductive LayerOp
  | conv (layer : String)
  | deconv (layer : String)
  | bn (layer : String) (trainingArg : Option Bool)
  | relu (layer : String)
  | add

/-- The training arguments handed to the batch-normalization applications of a
trace, in order. -/
def bnArgs (t : List LayerOp) : List (Option Bool) :=
  t.filterMap (fun op =>
    match op with
    | LayerOp.bn _ a => some a
    | _ => none)

/-- BasicResBlock.call (lines 60-74): `training = kwargs.get('training', True)`,
then conv1 → bn1 → act1 → conv2 → bn2, res_conv → res_bn, add, act2. -/
def BasicResBlock.callTrace (kwTraining : Option Bool) : List LayerOp :=
  let training := kwTraining.getD true
  [LayerOp.conv ("conv1"), LayerOp.bn ("bn1") (some training), LayerOp.relu ("act1"),
   LayerOp.conv ("conv2"), LayerOp.bn ("bn2") (some training),
   LayerOp.conv ("res_conv"), LayerOp.bn ("res_bn") (some training),
   LayerOp.add, LayerOp.relu ("act2")]

/-- ResBottleNeckBlock.call (lines 122-144):
`training = kwargs.pop('training', True)`, then the three conv stages, the
residual stage, add, and a final activation that reuses act3. -/
def ResBottleNeckBlock.callTrace (kwTraining : Option Bool) : List LayerOp :=
  let training := kwTraining.getD true
  [LayerOp.conv ("conv1"), LayerOp.bn ("bn1") (some training), LayerOp.relu ("act1"),
   LayerOp.conv ("conv2"), LayerOp.bn ("bn2") (some training), LayerOp.relu ("act2"),
   LayerOp.conv ("conv3"), LayerOp.bn ("bn3") (some training), LayerOp.relu ("act3"),
   LayerOp.conv ("res_conv"), LayerOp.bn ("res_bn") (some training),
   LayerOp.add, LayerOp.relu ("act3")]

/-- ResidualDeconvBlock.call (lines 182-196):
`training = kwargs.get("training", False)`; bn1/bn2/bn3 receive the flag, but
act3 — a BatchNormalization instance standing in the activation slot — is
invoked with no training argument (line 193). -/
def ResidualDeconvBlock.callTrace (kwTraining : Option Bool) : List LayerOp :=
  let training := kwTraining.getD false
  [LayerOp.bn ("bn1") (some training), LayerOp.relu ("act1"), LayerOp.deconv ("deconv1"),
   LayerOp.bn ("bn2") (some training), LayerOp.relu ("act2"), LayerOp.deconv ("deconv2"),
   LayerOp.bn ("bn3") (some training), LayerOp.bn ("act3") none, LayerOp.deconv ("deconv3"),
   LayerOp.add]

/-- A Convolution2D output always has the layer's filter count as its channel
dimension. -/
lemma ConvCfg.outShape_channels (cfg : ConvCfg) (x s : Shape4)
    (h : cfg.outShape x = Except.ok s) : s.c = cfg.filters := by
  unfold ConvCfg.outShape at h
  split at h
  · injection h with h2
    subst h2
    rfl
  · exact Except.noConfusion h
  · exact Except.noConfusion h

/-- The main path of ResBottleNeckBlock ends with conv3, so its channel count
is conv3's filter count. -/
lemma ResBottleNeckBlock.mainShape_channels (blk : ResBottleNeckBlock)
    (inp s : Shape4) (h : blk.mainShape inp = Except.ok s) :
    s.c = blk.conv3.filters := by
  unfold ResBottleNeckBlock.mainShape at h
  split at h
  · exact Except.noConfusion h
  · split at h
    · exact Except.noConfusion h
    · exact ConvCfg.outShape_channels _ _ _ h

/-- Claim C2: with same padding, BasicResBlock with strides (1,1) maps an
input of shape (B,H,W,C) to an output of shape (B,H,W,F); with strides (2,2)
the output spatial dimensions are the ceiling of half the input's, so an input
of shape (2,32,32,16) with filters 32 yields (2,16,16,32). -/
theorem claim_C2 :
    (∀ (F B H W C : ℕ),
      (BasicResBlock.init F (3, 3) Padding.same (1, 1)).callShape (Shape4.mk B H W C)
        = Except.ok (Shape4.mk B H W F))
    ∧ (∀ (F B H W C : ℕ),
      (BasicResBlock.init F (3, 3) Padding.same (2, 2)).callShape (Shape4.mk B H W C)
        = Except.ok (Shape4.mk B ((H + 1) / 2) ((W + 1) / 2) F))
    ∧ (BasicResBlock.init 32 (3, 3) Padding.same (2, 2)).callShape (Shape4.mk 2 32 32 16)
        = Except.ok (Shape4.mk 2 16 16 32) := by
  have harith : ∀ n : ℕ, n + 2 - 1 = n + 1 := fun n => by omega
  refine ⟨?_, ?_, ?_⟩
  · intro F B H W C
    simp [BasicResBlock.init, BasicResBlock.callShape, BasicResBlock.mainShape,
      BasicResBlock.residualShape, ConvCfg.outShape, convOutDim, tf_add_shapes,
      Nat.div_one]
  · intro F B H W C
    simp [BasicResBlock.init, BasicResBlock.callShape, BasicResBlock.mainShape,
      BasicResBlock.residualShape, ConvCfg.outShape, convOutDim, tf_add_shapes,
      Nat.div_one, harith]
  · rfl

/-- Claim C3: every successful ResBottleNeckBlock output has channel count
4 * filters regardless of the input's channel count; concretely, filters 16
with strides (1,1) maps (2,16,16,64) to (2,16,16,64). -/
theorem claim_C3 :
    (∀ (F kh kw sh sw : ℕ) (pad : Padding) (inp out : Shape4),
      (ResBottleNeckBlock.init F (kh, kw) pad (sh, sw)).callShape inp = Except.ok out →
      out.c = 4 * F)
    ∧ (ResBottleNeckBlock.init 16 (3, 3) Padding.same (1, 1)).callShape
        (Shape4.mk 2 16 16 64) = Except.ok (Shape4.mk 2 16 16 64) := by
  constructor
  · intro F kh kw sh sw pad inp out h
    unfold ResBottleNeckBlock.callShape at h
    split at h
    · exact Except.noConfusion h
    · rename_i x hmain
      split at h
      · exact Except.noConfusion h
      · rename_i r hres
        rw [show tf_add_shapes [TFArg.tensor x, TFArg.tensor r]
              = if x = r then Except.ok x else Except.error (PyError.shapeMismatch x r)
            from rfl] at h
        by_cases hxr : x = r
        · rw [if_pos hxr] at h
          injection h with h2
          have hc := ResBottleNeckBlock.mainShape_channels _ _ _ hmain
          rw [← h2, hc]
          show F * 4 = 4 * F
          exact Nat.mul_comm F 4
        · rw [if_neg hxr] at h
          exact Except.noConfusion h
  · rfl

/-- Witness for Claim C3: the concrete scenario instantiates the channel-count
statement. -/
theorem claim_C3_witness : (Shape4.mk 2 16 16 64).c = 4 * 16 :=
  claim_C3.1 16 3 3 1 1 Padding.same (Shape4.mk 2 16 16 64) (Shape4.mk 2 16 16 64) rfl

/-- Claim C4 (what the code actually does): ResidualDeconvBlock.call never
returns the elementwise sum — line 196 calls tf.add with the single list
argument [x, residual], so every invocation raises a TypeError. -/
theorem claim_C4_code_result :
    ∀ (blk : ResidualDeconvBlock) (inputs : Shape4),
      blk.callShape inputs
        = Except.error (PyError.typeError ("tf.add missing required positional argument y")) := by
  intro blk inputs
  rfl

/-- Counterexample to Claim C5 as stated: with valid padding, BasicResBlock's
main path and shortcut produce different shapes on a defined input, and with
same padding but strides (2,2), ResidualDeconvBlock's stage-2 output and
stage-3 residual produce different shapes. -/
theorem claim_C5_counterexample :
    ((BasicResBlock.init 4 (3, 3) Padding.valid (1, 1)).mainShape (Shape4.mk 1 8 8 3)
        = Except.ok (Shape4.mk 1 4 4 4)
      ∧ (BasicResBlock.init 4 (3, 3) Padding.valid (1, 1)).residualShape (Shape4.mk 1 8 8 3)
        = Except.ok (Shape4.mk 1 8 8 4)
      ∧ Shape4.mk 1 4 4 4 ≠ Shape4.mk 1 8 8 4)
    ∧ ((ResidualDeconvBlock.init 16 (3, 3) Padding.same (2, 2)).xShape (Shape4.mk 2 8 8 16)
        = Shape4.mk 2 16 16 16
      ∧ (ResidualDeconvBlock.init 16 (3, 3) Padding.same (2, 2)).residualShape (Shape4.mk 2 8 8 16)
        = Shape4.mk 2 32 32 16
      ∧ Shape4.mk 2 16 16 16 ≠ Shape4.mk 2 32 32 16) := by
  exact ⟨⟨rfl, rfl, by decide⟩, ⟨rfl, rfl, by decide⟩⟩

/-- Claim C5 as amended: with same padding the main-path and shortcut shapes of
BasicResBlock and ResBottleNeckBlock agree on every input for all construction
parameters, and ResidualDeconvBlock's stage-2 and stage-3 shapes agree when its
strides are (1,1). -/
theorem claim_C5_amended :
    (∀ (F kh kw sh sw : ℕ) (inp : Shape4),
      (BasicResBlock.init F (kh, kw) Padding.same (sh, sw)).mainShape inp
        = (BasicResBlock.init F (kh, kw) Padding.same (sh, sw)).residualShape inp)
    ∧ (∀ (F kh kw sh sw : ℕ) (inp : Shape4),
      (ResBottleNeckBlock.init F (kh, kw) Padding.same (sh, sw)).mainShape inp
        = (ResBottleNeckBlock.init F (kh, kw) Padding.same (sh, sw)).residualShape inp)
    ∧ (∀ (F kh kw : ℕ) (inp : Shape4),
      (ResidualDeconvBlock.init F (kh, kw) Padding.same (1, 1)).xShape inp
        = (ResidualDeconvBlock.init F (kh, kw) Padding.same (1, 1)).residualShape inp) := by
  refine ⟨?_, ?_, ?_⟩
  · intro F kh kw sh sw inp
    simp [BasicResBlock.init, BasicResBlock.mainShape, BasicResBlock.residualShape,
      ConvCfg.outShape, convOutDim, Nat.div_one]
  · intro F kh kw sh sw inp
    simp [ResBottleNeckBlock.init, ResBottleNeckBlock.mainShape,
      ResBottleNeckBlock.residualShape, ConvCfg.outShape, convOutDim, Nat.div_one]
  · intro F kh kw inp
    simp [ResidualDeconvBlock.init, ResidualDeconvBlock.xShape,
      ResidualDeconvBlock.residualShape, ConvCfg.outShapeT, deconvOutDim]

/-- Counterexample to Claim C6 as stated: in a ResidualDeconvBlock call with
the training keyword absent, not every batch-normalization application receives
the chosen value False — act3 (a BatchNormalization instance) is invoked with
no training argument. -/
theorem claim_C6_counterexample :
    ¬ ∀ a ∈ bnArgs (ResidualDeconvBlock.callTrace none), a = some false := by
  decide

/-- Claim C6 as amended: with the training keyword absent, BasicResBlock.call
and ResBottleNeckBlock.call behave as if training=True and
ResidualDeconvBlock.call as if training=False; the chosen value is passed to
every batch-normalization step invoked with a training argument, but
ResidualDeconvBlock's act3 — a BatchNormalization instance occupying the
activation slot — receives none. -/
theorem claim_C6_amended :
    BasicResBlock.callTrace none = BasicResBlock.callTrace (some true)
    ∧ ResBottleNeckBlock.callTrace none = ResBottleNeckBlock.callTrace (some true)
    ∧ ResidualDeconvBlock.callTrace none = ResidualDeconvBlock.callTrace (some false)
    ∧ bnArgs (BasicResBlock.callTrace none) = [some true, some true, some true]
    ∧ bnArgs (ResBottleNeckBlock.callTrace none)
        = [some true, some true, some true, some true]
    ∧ bnArgs (ResidualDeconvBlock.callTrace none)
        = [some false, some false, some false, none] :=
  ⟨rfl, rfl, rfl, rfl, rfl, rfl⟩

/-- The convolution layers each block's constructor builds. -/
def BasicResBlock.convCfgs (blk : BasicResBlock) : List ConvCfg :=
  [blk.conv1, blk.conv2, blk.res_conv]

/-- The convolution layers ResBottleNeckBlock's constructor builds. -/
def ResBottleNeckBlock.convCfgs (blk : ResBottleNeckBlock) : List ConvCfg :=
  [blk.conv1, blk.conv2, blk.conv3, blk.res_conv]

/-- The transposed-convolution layers ResidualDeconvBlock's constructor builds. -/
def ResidualDeconvBlock.convCfgs (blk : ResidualDeconvBlock) : List ConvCfg :=
  [blk.deconv1, blk.deconv2, blk.deconv3]

/-- Counterexample to Claim C7 as stated: BasicResBlock's constructor attaches
the function returned by orthogonal_initializer(1e-4) to conv1 (as its
kernel_initializer), so the blocks do wire the regularizer functions into
their layers. -/
theorem claim_C7_counterexample :
    (BasicResBlock.init 32 (3, 3) Padding.same (2, 2)).conv1.kernel_initializer
      = InitSpec.ortho (1 / 10000) := rfl

/-- Claim C7 as amended: every convolution and transposed-convolution layer
built by the three block constructors has the function returned by
orthogonal_initializer(1e-4) attached as its kernel_initializer (the
kernel_regularizer slot stays unset, and othrogonal_initializer_fc is never
attached to anything). -/
theorem claim_C7_amended :
    ∀ (F kh kw : ℕ) (pad : Padding) (sh sw : ℕ),
      ∀ cfg ∈ (BasicResBlock.init F (kh, kw) pad (sh, sw)).convCfgs
          ++ (ResBottleNeckBlock.init F (kh, kw) pad (sh, sw)).convCfgs
          ++ (ResidualDeconvBlock.init F (kh, kw) pad (sh, sw)).convCfgs,
        cfg.kernel_initializer = InitSpec.ortho (1 / 10000)
          ∧ cfg.kernel_regularizer = none := by
  intro F kh kw pad sh sw cfg hmem
  simp only [BasicResBlock.init, BasicResBlock.convCfgs, ResBottleNeckBlock.init,
    ResBottleNeckBlock.convCfgs, ResidualDeconvBlock.init,
    ResidualDeconvBlock.convCfgs, List.mem_append, List.mem_cons,
    List.not_mem_nil, or_false] at hmem
  rcases hmem with ((rfl | rfl | rfl) | (rfl | rfl | rfl | rfl)) | (rfl | rfl | rfl) <;>
    exact ⟨rfl, rfl⟩

/-- Witness for the amended Claim C7: conv2 of a concrete BasicResBlock has the
orthogonal-regularizer closure as its kernel_initializer and no
kernel_regularizer. -/
theorem claim_C7_amended_witness :
    (BasicResBlock.init 32 (3, 3) Padding.same (2, 2)).conv2.kernel_initializer
      = InitSpec.ortho (1 / 10000)
    ∧ (BasicResBlock.init 32 (3, 3) Padding.same (2, 2)).conv2.kernel_regularizer
      = none :=
  claim_C7_amended 32 3 3 Padding.same 2 2 _
    (by simp [BasicResBlock.convCfgs, ResBottleNeckBlock.convCfgs,
      ResidualDeconvBlock.convCfgs])
